import Mathlib

/-!
Verification of the PDALife scraper pipeline (src/main.py) against its
natural-language specification.  The Python program is shallowly embedded:
pure helpers become Lean functions over `String`/`List Char`; the
fetch-retry loop becomes a function over an explicit list of transport
events; the HTML parser (an external collaborator in the spec) is embedded
as a record of the selector results the program queries; network calls made
by a component are abstracted as oracle parameters giving the outcome of
the already-modelled callee.
-/

namespace PdaLife

/-! ## Python string primitives

Models of the Python `str` operations the source uses: substring test
(`in`), `startswith`, `replace` (all non-overlapping occurrences, left to
right), `split(sep)[0]` (truncate at the first occurrence of `sep`),
slicing, `urllib.parse.unquote`, `re.search(r'(https?://[^&]+)', s)`,
`int(s)` and `", ".join`. -/

/-- Python `needle in hay` on the character lists of two strings. -/
def subOfL (needle : List Char) : List Char → Bool
  | [] => needle.isEmpty
  | c :: rest => needle.isPrefixOf (c :: rest) || subOfL needle rest

/-- Python substring test `sub in s`. -/
def strContains (s sub : String) : Bool :=
  subOfL sub.data s.data

/-- Python `s.startswith(pre)`. -/
def pyStartsWith (s pre : String) : Bool :=
  pre.data.isPrefixOf s.data

/-- Python slice `s[n:]` for a nonnegative `n` (code-point indexing). -/
def strDrop (s : String) (n : Nat) : String :=
  ⟨s.data.drop n⟩

/-- ASCII whitespace test, for the leading/trailing strip `int` performs. -/
def isSpaceChar (c : Char) : Bool :=
  c = ' ' || c = '\t' || c = '\n' || c = '\r' || c = '\x0b' || c = '\x0c'

/-- Python `s.strip()` on a character list. -/
def pyStripL (l : List Char) : List Char :=
  ((l.dropWhile isSpaceChar).reverse.dropWhile isSpaceChar).reverse

/-- One fuel-indexed pass of Python `str.replace`: replaces every
non-overlapping occurrence of `old` left to right, never rescanning the
replacement text.  The fuel is the length of the scanned list, which bounds
the number of recursive steps since every step consumes at least one
character. -/
def pyReplaceAux (old new : List Char) : Nat → List Char → List Char
  | 0, l => l
  | _ + 1, [] => []
  | fuel + 1, c :: rest =>
    if old.isPrefixOf (c :: rest) then
      new ++ pyReplaceAux old new fuel (rest.drop (old.length - 1))
    else
      c :: pyReplaceAux old new fuel rest

/-- Python `s.replace(old, new)` for nonempty `old` (the source only
replaces the nonempty literals `"-com.translate.goog"` and
`".translate.goog"`). -/
def pyReplace (s old new : String) : String :=
  ⟨pyReplaceAux old.data new.data s.data.length s.data⟩

/-- Truncate a character list at the first occurrence of `sep`:
Python `s.split(sep)[0]` for nonempty `sep`. -/
def truncAtL (sep : List Char) : List Char → List Char
  | [] => []
  | c :: rest =>
    if sep.isPrefixOf (c :: rest) then [] else c :: truncAtL sep rest

/-- Python `s.split(sep)[0]` for nonempty `sep`. -/
def pySplitFirst (s sep : String) : String :=
  ⟨truncAtL sep.data s.data⟩

/-- Hexadecimal digit test, as accepted by percent-escapes. -/
def isHexDigit (c : Char) : Bool :=
  ('0' ≤ c && c ≤ '9') || ('a' ≤ c && c ≤ 'f') || ('A' ≤ c && c ≤ 'F')

/-- Numeric value of a hexadecimal digit. -/
def hexVal (c : Char) : Nat :=
  if '0' ≤ c && c ≤ '9' then c.toNat - '0'.toNat
  else if 'a' ≤ c && c ≤ 'f' then c.toNat - 'a'.toNat + 10
  else c.toNat - 'A'.toNat + 10

/-- Unicode replacement character U+FFFD, emitted for undecodable bytes
(`errors="replace"`, the default of `urllib.parse.unquote`). -/
def replChar : Char := Char.ofNat 0xFFFD

/-- Is `b` a UTF-8 continuation byte (`0x80 ≤ b ≤ 0xBF`)? -/
def isCont (b : Nat) : Bool := 0x80 ≤ b && b ≤ 0xBF

/-- Fuel-indexed UTF-8 decoder with replacement: valid sequences decode to
their scalar value; each maximal invalid prefix yields one U+FFFD, as
CPython's `errors="replace"` decoder does.  The fuel is the byte-list
length, which bounds the step count since every step consumes at least one
byte. -/
def utf8DecodeAux : Nat → List Nat → List Char
  | 0, _ => []
  | _ + 1, [] => []
  | fuel + 1, b :: rest =>
    if b < 0x80 then Char.ofNat b :: utf8DecodeAux fuel rest
    else if 0xC2 ≤ b && b ≤ 0xDF then
      match rest with
      | b2 :: r2 =>
        if isCont b2 then
          Char.ofNat ((b - 0xC0) * 64 + (b2 - 0x80)) :: utf8DecodeAux fuel r2
        else replChar :: utf8DecodeAux fuel rest
      | [] => [replChar]
    else if 0xE0 ≤ b && b ≤ 0xEF then
      match rest with
      | b2 :: r2 =>
        if (isCont b2 && (b != 0xE0 || 0xA0 ≤ b2) && (b != 0xED || b2 ≤ 0x9F)) then
          match r2 with
          | b3 :: r3 =>
            if isCont b3 then
              Char.ofNat ((b - 0xE0) * 4096 + (b2 - 0x80) * 64 + (b3 - 0x80)) ::
                utf8DecodeAux fuel r3
            else replChar :: utf8DecodeAux fuel r2
          | [] => [replChar]
        else replChar :: utf8DecodeAux fuel rest
      | [] => [replChar]
    else if 0xF0 ≤ b && b ≤ 0xF4 then
      match rest with
      | b2 :: r2 =>
        if (isCont b2 && (b != 0xF0 || 0x90 ≤ b2) && (b != 0xF4 || b2 ≤ 0x8F)) then
          match r2 with
          | b3 :: r3 =>
            if isCont b3 then
              match r3 with
              | b4 :: r4 =>
                if isCont b4 then
                  Char.ofNat ((b - 0xF0) * 262144 + (b2 - 0x80) * 4096 +
                    (b3 - 0x80) * 64 + (b4 - 0x80)) :: utf8DecodeAux fuel r4
                else replChar :: utf8DecodeAux fuel r3
              | [] => [replChar]
            else replChar :: utf8DecodeAux fuel r2
          | [] => [replChar]
        else replChar :: utf8DecodeAux fuel rest
      | [] => [replChar]
    else replChar :: utf8DecodeAux fuel rest

/-- Decode a byte list as UTF-8 with replacement. -/
def utf8Decode (bs : List Nat) : List Char :=
  utf8DecodeAux bs.length bs

/-- Collect the maximal run of consecutive `%XX` escapes at the head of the
list, returning the decoded bytes and the unconsumed remainder. -/
def takeEscapeRun : List Char → List Nat × List Char
  | '%' :: a :: b :: rest =>
    if isHexDigit a && isHexDigit b then
      let (bs, r) := takeEscapeRun rest
      ((hexVal a * 16 + hexVal b) :: bs, r)
    else ([], '%' :: a :: b :: rest)
  | l => ([], l)

/-- Fuel-indexed body of `urllib.parse.unquote`: runs of `%XX` escapes are
decoded to bytes and UTF-8-decoded with replacement; a `%` not followed by
two hex digits is kept literally.  The fuel is the input length, which
bounds the step count since each step consumes at least one character. -/
def unquoteAux : Nat → List Char → List Char
  | 0, l => l
  | _ + 1, [] => []
  | fuel + 1, '%' :: a :: b :: rest =>
    if isHexDigit a && isHexDigit b then
      let (bs, r) := takeEscapeRun ('%' :: a :: b :: rest)
      utf8Decode bs ++ unquoteAux fuel r
    else '%' :: unquoteAux fuel (a :: b :: rest)
  | fuel + 1, c :: rest => c :: unquoteAux fuel rest

/-- Python `urllib.parse.unquote(s)` with its default
`encoding="utf-8", errors="replace"`. -/
def pyUnquote (s : String) : String :=
  ⟨unquoteAux s.data.length s.data⟩

/-- Leftmost match of the pattern `https?://[^&]+` anchored at the head of
the list, if any: the scheme prefix followed by the maximal nonempty run of
non-`&` characters. -/
def httpMatchAt (l : List Char) : Option (List Char) :=
  if "https://".data.isPrefixOf l then
    match l.drop 8 with
    | [] => none
    | t :: ts => if t = '&' then none
      else some ("https://".data ++ (t :: ts).takeWhile (fun c => c != '&'))
  else if "http://".data.isPrefixOf l then
    match l.drop 7 with
    | [] => none
    | t :: ts => if t = '&' then none
      else some ("http://".data ++ (t :: ts).takeWhile (fun c => c != '&'))
  else none

/-- Python `re.search(r'(https?://[^&]+)', s)`: the leftmost match of the
pattern, scanning start positions left to right. -/
def searchHttp : List Char → Option (List Char)
  | [] => none
  | c :: rest =>
    match httpMatchAt (c :: rest) with
    | some m => some m
    | none => searchHttp rest

/-- Accumulate a decimal literal as Python `int` does, allowing single
underscores between digits; `prevDigit` records whether the previous
character was a digit. -/
def parseDigitsAux : Nat → Bool → List Char → Option Nat
  | acc, prevDigit, [] => if prevDigit then some acc else none
  | acc, prevDigit, c :: rest =>
    if '0' ≤ c && c ≤ '9' then
      parseDigitsAux (acc * 10 + (c.toNat - '0'.toNat)) true rest
    else if c = '_' then
      (if prevDigit then parseDigitsAux acc false rest else none)
    else none

/-- Python `int(s)` on a decimal string: surrounding whitespace stripped,
optional sign, then a nonempty digit run; `none` when `int` would raise
`ValueError`. -/
def pyInt (s : String) : Option Int :=
  match pyStripL s.data with
  | '+' :: rest => (parseDigitsAux 0 false rest).map Int.ofNat
  | '-' :: rest => (parseDigitsAux 0 false rest).map (fun n => -(n : Int))
  | l => (parseDigitsAux 0 false l).map Int.ofNat

/-- Python `", ".join(l)`. -/
def joinComma : List String → String
  | [] => ""
  | [x] => x
  | x :: y :: rest => x ++ ", " ++ joinComma (y :: rest)

/-- Python slice `l[:k]`: a negative bound counts from the end of the
list, clamped at zero. -/
def pySliceTo (k : Int) (l : List α) : List α :=
  if 0 ≤ k then l.take k.toNat
  else l.take ((l.length : Int) + k).toNat

/-! ## Configuration constants (src/main.py lines 29-30) -/

/-- The catalog site origin, `BASE_DOMAIN`. -/
def BASE_DOMAIN : String := "https://pdalife.com"

/-- The CDN mirror origin, `CDN_DOMAIN`. -/
def CDN_DOMAIN : String := "https://mobdisc.com"

/-! ## URL Normalizer (src/main.py `unwrap_google_url`, lines 70-103) -/

/-- The URL normalizer `unwrap_google_url`: percent-decode, rewrite
translation-proxy host patterns, truncate at translation query markers,
absolutize root-relative paths against the CDN origin (for `/fdl/` paths)
or the base origin, and extract a nested `https?://[^&]+` URL from
Google-style wrappers. -/
def unwrap_google_url (url : String) : String :=
  if url = "" then ""
  else
    let clean := pyUnquote url
    let clean := pyReplace clean "-com.translate.goog" ".com"
    let clean := pyReplace clean ".translate.goog" ""
    let clean := pySplitFirst clean "?_x_tr_"
    let clean := pySplitFirst clean "&_x_tr_"
    if pyStartsWith clean "/" then
      if pyStartsWith clean "/fdl/" then CDN_DOMAIN ++ clean
      else BASE_DOMAIN ++ clean
    else if strContains clean "https://" && strContains (strDrop clean 8) "http" then
      match searchHttp clean.data with
      | some m => ⟨m⟩
      | none => clean
    else clean

/-! ## Document model

The HTML parser is an external collaborator: given raw bytes it returns a
queryable tree.  A parsed document is embedded as the record of the results
of the CSS selections and text queries the program performs on it. -/

/-- A download button of the detail page
(`a.game-versions__downloads-button`): its `href` attribute, if any, and
the stripped text of its `.game-versions__downloads-size` child, if any. -/
structure LinkTag where
  href : Option String
  sizeText : Option String
  deriving DecidableEq

/-- The `.catalog-item__title a` element of a catalog entry: its text and
its `href` attribute.  The attribute is optional: an anchor without
`href` exists in HTML, and subscripting it (`title_el['href']`) raises
`KeyError`. -/
structure TitleEl where
  text : String
  href : Option String
  deriving DecidableEq

/-- The `.catalog-item__poster img` element of a catalog entry: its `src`
attribute.  The attribute is optional: an `img` without `src` exists in
HTML, and subscripting it (`img_el['src']`) raises `KeyError`. -/
structure ImgEl where
  src : Option String
  deriving DecidableEq

/-- One `.catalog-item` element of a search-results page: its title
anchor and its poster image, each present when the corresponding
`select_one` finds a (truthy) element. -/
structure CatalogItem where
  titleEl : Option TitleEl
  imgEl : Option ImgEl
  deriving DecidableEq

/-- A parsed document, embedded as the results of every selection the
program performs: `select('a.b-download__button')` hrefs,
`select('.game-versions__downloads-list li')` with each item's
`select_one('a.game-versions__downloads-button')`, the standalone
`select('a.game-versions__downloads-button')` list, whether
`select('.accordion-item')` matches, `select('.catalog-item')`, whether
the page text contains `"Found 0 responses"`, and the `data-max_page`
attribute of `select_one('.js-load_more')` when present. -/
structure Soup where
  bDownloadButtonHrefs : List (Option String)
  downloadListItems : List (Option LinkTag)
  standaloneButtons : List LinkTag
  hasAccordionItem : Bool
  catalogItems : List CatalogItem
  hasFoundZero : Bool
  loadMoreMaxPage : Option String
  deriving DecidableEq

/-- A document with no matching element for any selector. -/
def emptySoup : Soup :=
  { bDownloadButtonHrefs := []
    downloadListItems := []
    standaloneButtons := []
    hasAccordionItem := false
    catalogItems := []
    hasFoundZero := false
    loadMoreMaxPage := none }

/-! ## Resilient Fetcher (src/main.py `fetch_until_success`, lines 105-167)

One loop iteration consumes one transport event: either an exception
(transport or parse failure) or a response carrying an HTTP status, the
final URL after redirects (`str(res.url)`), and the parsed document. -/

/-- One transport event observed by an attempt of the fetch loop. -/
inductive FetchEvent where
  | exn (msg : String)
  | resp (status : Nat) (finalUrl : String) (doc : Soup)
  deriving DecidableEq

/-- Outcome of the fetch loop run on a finite event script: the validated
(or mirror-marked) document, terminal absence, or still retrying when the
script ran out, each with the number of attempts consumed. -/
inductive FetchResult where
  | success (doc : Soup) (attempts : Nat)
  | failure (attempts : Nat)
  | pending (attempts : Nat)
  deriving DecidableEq

/-- What one iteration of `fetch_until_success` does with one event. -/
inductive StepOut where
  | retry
  | giveUp
  | done (doc : Soup)
  deriving DecidableEq

/-- One iteration of the `while True` body of `fetch_until_success`:
exceptions retry; 429 and 5xx retry; 403/451 and 404 are terminal;
a validated document is returned; a rejected document is still returned
when the final URL contains `"mobdisc"` or the `a.b-download__button`
selector matches; otherwise status 200 is terminal and anything else
retries. -/
def fetchStep (validator : Soup → Bool) : FetchEvent → StepOut
  | .exn _ => .retry
  | .resp status finalUrl doc =>
    if status = 429 ∨ 500 ≤ status then .retry
    else if status = 403 ∨ status = 451 then .giveUp
    else if status = 404 then .giveUp
    else if validator doc then .done doc
    else if strContains finalUrl "mobdisc" || !doc.bDownloadButtonHrefs.isEmpty then .done doc
    else if status = 200 then .giveUp
    else .retry

/-- The retry loop of `fetch_until_success`, run over a finite script of
transport events; `attempts` is the value of `attempt_count` so far. -/
def fetch_until_success (validator : Soup → Bool) :
    List FetchEvent → Nat → FetchResult
  | [], attempts => .pending attempts
  | ev :: rest, attempts =>
    match fetchStep validator ev with
    | .retry => fetch_until_success validator rest (attempts + 1)
    | .giveUp => .failure (attempts + 1)
    | .done doc => .success doc (attempts + 1)

/-- The absolutization `fetch_until_success` applies to its argument
before the loop: a root-relative URL is resolved against the base origin. -/
def fetchTargetUrl (url : String) : String :=
  if pyStartsWith url "/" then BASE_DOMAIN ++ url else url

/-- Modelled from the spec, not from the source: the spec describes the
URL-based mirror marker as "resolved host contains the CDN domain", so
this extracts the host component of a URL (the text between the scheme
separator and the next `/`, `:`, `?` or `#`).  The source has no such
extraction; this definition exists to compare the spec's wording with the
source's whole-URL substring test. -/
def specResolvedHost (url : String) : String :=
  let rest :=
    if pyStartsWith url "https://" then url.data.drop 8
    else if pyStartsWith url "http://" then url.data.drop 7
    else url.data
  ⟨rest.takeWhile (fun c => c != '/' && c != ':' && c != '?' && c != '#')⟩

/-! ## CDN Link Resolver (src/main.py `scan_cdn_page_loop`, lines 173-219) -/

/-- The validity predicate `is_valid_mobdisc_page`: at least one
`a.b-download__button` element. -/
def is_valid_mobdisc_page (s : Soup) : Bool :=
  !s.bDownloadButtonHrefs.isEmpty

/-- The button scan of `scan_cdn_page_loop`, over the `href` attributes of
the `a.b-download__button` elements in document order: missing or empty
hrefs and Telegram links are skipped; an href containing `/fdl/` is
returned normalized; an href starting with `#/download/` is rewritten to
an absolute CDN path; an href containing both `http` and `mobdisc.com` is
returned as-is; a button matching no rule is passed over. -/
def scanButtons : List (Option String) → Option String
  | [] => none
  | none :: rest => scanButtons rest
  | some href :: rest =>
    if href = "" then scanButtons rest
    else if strContains href "t.me" then scanButtons rest
    else if strContains href "/fdl/" then some (unwrap_google_url href)
    else if pyStartsWith href "#/download/" then some (CDN_DOMAIN ++ strDrop href 1)
    else if strContains href "http" && strContains href "mobdisc.com" then some href
    else scanButtons rest

/-- `scan_cdn_page_loop`, abstracted over the outcome of its
`fetch_until_success(dwn_url, is_valid_mobdisc_page)` call: on a fetched
page, scan its download buttons; on fetch failure return `none`. -/
def scan_cdn_page_loop (fetched : Option Soup) : Option String :=
  match fetched with
  | none => none
  | some s => scanButtons s.bDownloadButtonHrefs

/-- Does the button-scan loop skip this button entirely (no rule fires)? -/
def buttonSkipped (b : Option String) : Bool :=
  match b with
  | none => true
  | some href =>
    href = "" || strContains href "t.me" ||
      (!strContains href "/fdl/" && !pyStartsWith href "#/download/" &&
        !(strContains href "http" && strContains href "mobdisc.com"))

/-! ## Item Resolver (src/main.py `process_item_fully`, lines 221-324)

The two network calls the pipeline makes — the detail-page fetch and the
per-variant `scan_cdn_page_loop` — are abstracted as oracles that either
return the callee's `Option` result or raise (`Except.error`), matching
the fact that any `await` in the `try` block can raise.  The enclosing
`try/except` converts any raised error to an absent result. -/

/-- The environment of one item's resolution pipeline: the outcome of
`fetch_until_success(detail_url, detail_page_valid)` and, for each URL,
the outcome of `scan_cdn_page_loop` on it. -/
structure ItemEnv where
  fetchDetail : Except String (Option Soup)
  resolveCdn : String → Except String (Option String)

/-- The validity predicate `detail_page_valid`: a download button or an
accordion container is present. -/
def detail_page_valid (s : Soup) : Bool :=
  !s.standaloneButtons.isEmpty || s.hasAccordionItem

/-- The link-tag collection of `process_item_fully`: when the
`.game-versions__downloads-list li` selection is nonempty, the buttons
found inside those items (in order); otherwise the standalone
`a.game-versions__downloads-button` elements. -/
def linkTagsOf (s : Soup) : List LinkTag :=
  if s.downloadListItems.isEmpty then s.standaloneButtons
  else s.downloadListItems.filterMap id

/-- The representative size: the `.game-versions__downloads-size` text of
the first link tag, or `""`. -/
def mainSizeOf : List LinkTag → String
  | [] => ""
  | tag :: _ => tag.sizeText.getD ""

/-- The per-variant loop of `process_item_fully` over the collected link
tags: missing or empty hrefs are skipped; a `magnet:` link is kept
verbatim with no fetch; a link containing `http` but neither
`pdalife.com` nor `/dwn/` is fed to the CDN resolver, falling back to the
raw link on failure; any other link is normalized, fed to the CDN
resolver, and dropped on failure. -/
def processVariants (resolve : String → Except String (Option String)) :
    List LinkTag → Except String (List String)
  | [] => .ok []
  | tag :: rest =>
    match tag.href with
    | none => processVariants resolve rest
    | some raw =>
      if raw = "" then processVariants resolve rest
      else if pyStartsWith raw "magnet:" then do
        let others ← processVariants resolve rest
        return raw :: others
      else if strContains raw "http" && !strContains raw "pdalife.com" &&
          !strContains raw "/dwn/" then do
        let direct ← resolve raw
        let others ← processVariants resolve rest
        match direct with
        | some d => return d :: others
        | none => return raw :: others
      else do
        let direct ← resolve (unwrap_google_url raw)
        let others ← processVariants resolve rest
        match direct with
        | some d => return d :: others
        | none => return others

/-- The aggregated record of one resolved item.  The external `download`
field of the response is the comma-join of `downloadLinks`
(the source's `final_data_list`). -/
structure ResolvedItem where
  name : String
  link : String
  image : String
  downloadLinks : List String
  size : String
  deriving DecidableEq

/-- External representation of the download links: `", ".join(...)`. -/
def ResolvedItem.download (it : ResolvedItem) : String :=
  joinComma it.downloadLinks

/-- The body of `process_item_fully` inside its `try` block: failed detail
fetch, no link tags, or an empty final link list yield an absent result;
otherwise the aggregated record.  A raised exception propagates as
`Except.error`. -/
def process_item_body (env : ItemEnv) (name detailUrl image : String) :
    Except String (Option ResolvedItem) := do
  let fetched ← env.fetchDetail
  match fetched with
  | none => return none
  | some s =>
    let tags := linkTagsOf s
    if tags.isEmpty then return none
    else do
      let links ← processVariants env.resolveCdn tags
      if links.isEmpty then return none
      else
        return some
          { name := name
            link := unwrap_google_url detailUrl
            image := image
            downloadLinks := links
            size := mainSizeOf tags }

/-- `process_item_fully`: the body with its enclosing `try/except`, which
converts any raised exception into an absent result. -/
def process_item_fully (env : ItemEnv) (name detailUrl image : String) :
    Option ResolvedItem :=
  match process_item_body env name detailUrl image with
  | .error _ => none
  | .ok r => r

/-! ## Search Orchestrator (src/main.py `search_apps`, lines 338-444)

The per-page `fetch_until_success(search_url, search_page_valid)` call is
abstracted as an oracle from the page URL to the fetch outcome, and each
item's pipeline environment as an oracle from the task's arguments. -/

/-- The validity predicate `search_page_valid`: a catalog item is present
or the page text contains the zero-results phrase. -/
def search_page_valid (s : Soup) : Bool :=
  !s.catalogItems.isEmpty || s.hasFoundZero

/-- The search URL for a page: the root search path for page 1, a
`page-N` path segment otherwise. -/
def searchUrl (query : String) (page : Int) : String :=
  if page = 1 then BASE_DOMAIN ++ "/search/" ++ query
  else BASE_DOMAIN ++ "/search/" ++ query ++ "/page-" ++ toString page ++ "/"

/-- The pagination `while` loop of `search_apps`, returning the collected
`.catalog-item` elements and the list of page numbers fetched.  Each
iteration first checks `len(collected) < limit`; a failed fetch, the
zero-results phrase, or an empty item list breaks; otherwise the page's
items are appended, `max_page` is updated from the `.js-load_more`
element's `data-max_page` attribute when it parses as an integer, and the
loop breaks when the current page has reached `max_page`.  The fuel is
the number of remaining iterations the `len < limit` guard can allow:
every continuing iteration appends at least one item, so `limit.toNat`
iterations always suffice from the empty accumulator. -/
def paginateAux (fetchSearch : String → Option Soup) (query : String) (limit : Int) :
    Nat → List CatalogItem → Int → Int → List CatalogItem × List Int
  | 0, collected, _, _ => (collected, [])
  | fuel + 1, collected, currentPage, maxPage =>
    if (collected.length : Int) < limit then
      match fetchSearch (searchUrl query currentPage) with
      | none => (collected, [currentPage])
      | some soup =>
        if soup.hasFoundZero then (collected, [currentPage])
        else if soup.catalogItems.isEmpty then (collected, [currentPage])
        else
          let collected2 := collected ++ soup.catalogItems
          let maxPage2 := (soup.loadMoreMaxPage.bind pyInt).getD maxPage
          if maxPage2 ≤ currentPage then (collected2, [currentPage])
          else
            let next := paginateAux fetchSearch query limit fuel collected2 (currentPage + 1) maxPage2
            (next.1, currentPage :: next.2)
    else (collected, [])

/-- The pagination loop from its initial state: empty accumulator,
`current_page = 1`, `max_page = 1`. -/
def paginate (fetchSearch : String → Option Soup) (query : String) (limit : Int) :
    List CatalogItem × List Int :=
  paginateAux fetchSearch query limit limit.toNat [] 1 1

/-- The image expression of the task-building loop:
`unwrap_google_url(img_el['src']) if img_el else ""`.  With no poster
element the image is `""`; with a poster element lacking the `src`
attribute the subscript raises `KeyError`, which propagates uncaught. -/
def imageOf (item : CatalogItem) : Except String String :=
  match item.imgEl with
  | none => .ok ""
  | some im =>
    match im.src with
    | none => .error "KeyError: src"
    | some src => .ok (unwrap_google_url src)

/-- The task-building loop of `search_apps` over the truncated catalog
items: an item without a title anchor is skipped (`continue`); otherwise
`title_el['href']` is read — raising `KeyError` when the anchor has no
`href` attribute — the detail link is normalized, the image is computed
by `imageOf`, and the task `(name, detail_link, image)` is appended.  A
raised `KeyError` aborts the loop and propagates out of the handler
(surfacing as an error response), since this loop runs outside any
`try/except`. -/
def buildTasks : List CatalogItem → Except String (List (String × String × String))
  | [] => .ok []
  | item :: rest =>
    match item.titleEl with
    | none => buildTasks rest
    | some t =>
      match t.href with
      | none => .error "KeyError: href"
      | some href =>
        match imageOf item with
        | .error e => .error e
        | .ok image =>
          match buildTasks rest with
          | .error e => .error e
          | .ok others => .ok ((t.text, unwrap_google_url href, image) :: others)

/-- The stub `buildTasks` extracts from one `.catalog-item` element on a
run that completes without raising: skipped when the title anchor is
missing, else the name, the normalized detail link, and the normalized
poster `src` (or `""` with no poster).  This is only the non-raising
projection of the loop — `buildTasks` above is the faithful fallible
model, and agrees with `List.filterMap stubTask` on every completed run
(`buildTasks_ok_filterMap` below). -/
def stubTask (item : CatalogItem) : Option (String × String × String) :=
  match item.titleEl with
  | none => none
  | some t =>
    match t.href with
    | none => none
    | some href =>
      some (t.text, unwrap_google_url href,
        match item.imgEl with
        | none => ""
        | some im =>
          match im.src with
          | none => ""
          | some src => unwrap_google_url src)

/-- The `asyncio.gather` fan-out of `search_apps`: each task's
`process_item_fully`, in task order. -/
def gather_process_items (itemEnv : String → String → String → ItemEnv)
    (tasks : List (String × String × String)) : List (Option ResolvedItem) :=
  tasks.map (fun t => process_item_fully (itemEnv t.1 t.2.1 t.2.2) t.1 t.2.1 t.2.2)

/-- The JSON payload of `GET /search`.  The `query` and `limit` keys are
`Option`-valued because the zero-collected early return omits them. -/
structure SearchResponse where
  success : Bool
  query : Option String
  limit : Option Int
  count : Nat
  results : List ResolvedItem
  deriving DecidableEq

/-- The `search_apps` endpoint handler: paginate, return the bare success
payload when nothing was collected, otherwise truncate to `limit`, build
the per-item tasks (skipping items with no title anchor; an uncaught
`KeyError` on a missing `href`/`src` attribute propagates as
`Except.error`, which the framework turns into an error response),
resolve the tasks concurrently, drop absent results, and answer with the
full payload. -/
def search_apps (fetchSearch : String → Option Soup)
    (itemEnv : String → String → String → ItemEnv)
    (query : String) (limit : Int) : Except String SearchResponse :=
  let collected := (paginate fetchSearch query limit).1
  if collected.isEmpty then
    .ok { success := true, query := none, limit := none, count := 0, results := [] }
  else
    match buildTasks (pySliceTo limit collected) with
    | .error e => .error e
    | .ok tasks =>
      let validResults := (gather_process_items itemEnv tasks).filterMap id
      .ok { success := true
            query := some query
            limit := some limit
            count := validResults.length
            results := validResults }

/-! ## Concrete fixtures used by the example instantiations below -/

/-- A detail page carrying the two documented download variants: a magnet
link (with the representative size label) and an internal `/dwn/`
redirect. -/
def exampleDetailSoup : Soup :=
  { emptySoup with
      downloadListItems :=
        [some { href := some "magnet:?xt=1", sizeText := some "15 MB" },
         some { href := some "/dwn/redirect", sizeText := none }] }

/-- An item environment where the detail fetch yields
`exampleDetailSoup` and the CDN resolver resolves the normalized `/dwn/`
redirect to the final CDN URL. -/
def exampleItemEnv : ItemEnv :=
  { fetchDetail := .ok (some exampleDetailSoup)
    resolveCdn := fun u =>
      if u = "https://pdalife.com/dwn/redirect" then .ok (some "https://cdn/final")
      else .ok none }

/-- An item environment whose detail fetch raises. -/
def failingItemEnv : ItemEnv :=
  { fetchDetail := .error "connection reset", resolveCdn := fun _ => .ok none }

/-- A per-task environment assignment where every task gets an absent
detail page. -/
def trivialItemEnvFor : String → String → String → ItemEnv :=
  fun _ _ _ => { fetchDetail := .ok none, resolveCdn := fun _ => .ok none }

/-- A per-task environment assignment where every task resolves through
`exampleItemEnv`. -/
def exampleItemEnvFor : String → String → String → ItemEnv :=
  fun _ _ _ => exampleItemEnv

/-- A per-task environment assignment where the task named `"Beta"`
raises and every other task resolves through `exampleItemEnv`. -/
def mixedItemEnvFor : String → String → String → ItemEnv :=
  fun name _ _ => if name = "Beta" then failingItemEnv else exampleItemEnv

/-- A catalog entry with a title anchor (with `href`) and a poster image
(with `src`). -/
def exampleCatalogItem : CatalogItem :=
  { titleEl := some { text := "Alpha", href := some "/alpha" }
    imgEl := some { src := some "/alpha.png" } }

/-- A catalog entry with a title anchor (with `href`) and no poster
image. -/
def exampleCatalogItem2 : CatalogItem :=
  { titleEl := some { text := "Beta", href := some "/beta" }, imgEl := none }

/-- A catalog entry whose title anchor has no `href` attribute, the
markup on which the task-building loop raises `KeyError`. -/
def hrefLessCatalogItem : CatalogItem :=
  { titleEl := some { text := "X", href := none }, imgEl := none }

/-- A search-results page whose single entry has an `href`-less title
anchor. -/
def hrefLessPageSoup : Soup :=
  { emptySoup with catalogItems := [hrefLessCatalogItem] }

/-- A fetch oracle where page 1 of the query `"alpha"` yields the page
with the `href`-less entry. -/
def hrefLessPageFetch : String → Option Soup :=
  fun u => if u = searchUrl "alpha" 1 then some hrefLessPageSoup else none

/-- A search-results page with two catalog entries and a `.js-load_more`
element whose `data-max_page` attribute does not parse as an integer. -/
def onePageSoup : Soup :=
  { emptySoup with
      catalogItems := [exampleCatalogItem, exampleCatalogItem2]
      loadMoreMaxPage := some "not-a-number" }

/-- A fetch oracle where only page 1 of the query `"alpha"` succeeds. -/
def onePageFetch : String → Option Soup :=
  fun u => if u = searchUrl "alpha" 1 then some onePageSoup else none

/-! ## Helper lemmas -/

theorem scanButtons_skip (b : Option String) (rest : List (Option String))
    (h : buttonSkipped b = true) : scanButtons (b :: rest) = scanButtons rest := by
  cases b with
  | none => rfl
  | some href =>
    simp only [buttonSkipped] at h
    by_cases h0 : href = ""
    · simp [scanButtons, h0]
    · by_cases h1 : strContains href "t.me" = true
      · simp [scanButtons, h0, h1]
      · have hd : decide (href = "") = false := decide_eq_false h0
        have ht : strContains href "t.me" = false := by
          cases hb : strContains href "t.me"
          · rfl
          · exact absurd hb h1
        rw [hd, ht, Bool.false_or, Bool.false_or, Bool.and_eq_true, Bool.and_eq_true] at h
        obtain ⟨⟨hf, hs⟩, hm⟩ := h
        have hf2 : strContains href "/fdl/" = false := by
          cases hb : strContains href "/fdl/"
          · rfl
          · rw [hb] at hf; exact absurd hf (by decide)
        have hs2 : pyStartsWith href "#/download/" = false := by
          cases hb : pyStartsWith href "#/download/"
          · rfl
          · rw [hb] at hs; exact absurd hs (by decide)
        have hm2 : (strContains href "http" && strContains href "mobdisc.com") = false := by
          cases hb : (strContains href "http" && strContains href "mobdisc.com")
          · rfl
          · rw [hb] at hm; exact absurd hm (by decide)
        simp [scanButtons, h0, h1, hf2, hs2, hm2]

theorem filterMap_id_length_of_isSome (l : List (Option α))
    (h : ∀ x ∈ l, x.isSome = true) : (l.filterMap id).length = l.length := by
  induction l with
  | nil => rfl
  | cons x rest ih =>
    have hx := h x (List.mem_cons_self x rest)
    have hrest : ∀ y ∈ rest, y.isSome = true :=
      fun y hy => h y (List.mem_cons_of_mem x hy)
    cases x with
    | none => simp at hx
    | some a =>
      simp only [List.filterMap_cons, id, List.length_cons]
      rw [ih hrest]

theorem buildTasks_ok_filterMap (l : List CatalogItem)
    (ts : List (String × String × String)) (h : buildTasks l = .ok ts) :
    ts = l.filterMap stubTask := by
  induction l generalizing ts with
  | nil =>
    simp only [buildTasks] at h
    cases h
    rfl
  | cons item rest ih =>
    cases htitle : item.titleEl with
    | none =>
      simp only [buildTasks, htitle] at h
      have hstub : stubTask item = none := by simp [stubTask, htitle]
      rw [ih ts h]
      simp [List.filterMap_cons, hstub]
    | some t =>
      cases thref : t.href with
      | none => simp [buildTasks, htitle, thref] at h
      | some href =>
        cases himg : imageOf item with
        | error e => simp [buildTasks, htitle, thref, himg] at h
        | ok image =>
          cases hrest : buildTasks rest with
          | error e => simp [buildTasks, htitle, thref, himg, hrest] at h
          | ok others =>
            simp only [buildTasks, htitle, thref, himg, hrest, Except.ok.injEq] at h
            have hstub : stubTask item = some (t.text, unwrap_google_url href, image) := by
              cases hel : item.imgEl with
              | none =>
                simp only [imageOf, hel, Except.ok.injEq] at himg
                simp [stubTask, htitle, thref, hel, himg]
              | some im =>
                cases hsrc : im.src with
                | none => simp [imageOf, hel, hsrc] at himg
                | some src =>
                  simp only [imageOf, hel, hsrc, Except.ok.injEq] at himg
                  simp [stubTask, htitle, thref, hel, hsrc, himg]
            rw [← h, ih others hrest]
            simp [List.filterMap_cons, hstub]

/-! ## Claim theorems -/

/-- C1: in the fetch-until-valid loop, a 429 or 5xx response causes
another attempt; a 404, 403 or 451 response terminates the operation with
absence on that very attempt with no retry; the script
`[429, 500, 200-valid]` yields the validated document on exactly the third
attempt; and a 200 response rejected by the validator with no CDN-mirror
marker terminates with absence after that single attempt. -/
theorem C1_fetcher_status_policy :
    (∀ (v : Soup → Bool) (st : Nat) (u : String) (d : Soup)
        (rest : List FetchEvent) (n : Nat),
        st = 429 ∨ 500 ≤ st →
        fetch_until_success v (.resp st u d :: rest) n =
          fetch_until_success v rest (n + 1)) ∧
    (∀ (v : Soup → Bool) (st : Nat) (u : String) (d : Soup)
        (rest : List FetchEvent) (n : Nat),
        st = 404 ∨ st = 403 ∨ st = 451 →
        fetch_until_success v (.resp st u d :: rest) n = .failure (n + 1)) ∧
    (∀ (v : Soup → Bool) (u1 u2 u3 : String) (d1 d2 d3 : Soup),
        v d3 = true →
        fetch_until_success v
          [.resp 429 u1 d1, .resp 500 u2 d2, .resp 200 u3 d3] 0 =
          .success d3 3) ∧
    (∀ (v : Soup → Bool) (u : String) (d : Soup)
        (rest : List FetchEvent) (n : Nat),
        v d = false → strContains u "mobdisc" = false →
        d.bDownloadButtonHrefs = [] →
        fetch_until_success v (.resp 200 u d :: rest) n = .failure (n + 1)) := by
  refine ⟨?_, ?_, ?_, ?_⟩
  · intro v st u d rest n h
    simp [fetch_until_success, fetchStep, h]
  · intro v st u d rest n h
    rcases h with rfl | rfl | rfl <;> simp [fetch_until_success, fetchStep]
  · intro v u1 u2 u3 d1 d2 d3 h
    simp [fetch_until_success, fetchStep, h]
  · intro v u d rest n h1 h2 h3
    simp [fetch_until_success, fetchStep, h1, h2, h3]

/-- C1 witness: the four parts instantiated at concrete scripts. -/
theorem C1_fetcher_status_policy_witness :
    fetch_until_success (fun _ => true) [.resp 429 "u" emptySoup] 0 =
      fetch_until_success (fun _ => true) [] 1 ∧
    fetch_until_success (fun _ => true) [.resp 404 "u" emptySoup] 0 = .failure 1 ∧
    fetch_until_success (fun _ => true) [.resp 403 "u" emptySoup] 0 = .failure 1 ∧
    fetch_until_success (fun _ => true) [.resp 451 "u" emptySoup] 0 = .failure 1 ∧
    fetch_until_success (fun _ => true)
      [.resp 429 "a" emptySoup, .resp 500 "b" emptySoup, .resp 200 "c" emptySoup] 0 =
      .success emptySoup 3 ∧
    fetch_until_success (fun _ => false) [.resp 200 "u" emptySoup] 0 = .failure 1 :=
  ⟨C1_fetcher_status_policy.1 _ 429 "u" emptySoup [] 0 (Or.inl rfl),
   C1_fetcher_status_policy.2.1 _ 404 "u" emptySoup [] 0 (Or.inl rfl),
   C1_fetcher_status_policy.2.1 _ 403 "u" emptySoup [] 0 (Or.inr (Or.inl rfl)),
   C1_fetcher_status_policy.2.1 _ 451 "u" emptySoup [] 0 (Or.inr (Or.inr rfl)),
   C1_fetcher_status_policy.2.2.1 (fun _ => true) "a" "b" "c" emptySoup emptySoup emptySoup rfl,
   C1_fetcher_status_policy.2.2.2 (fun _ => false) "u" emptySoup [] 0 rfl (by decide) rfl⟩

/-- C8 counterexample: a 200 response whose final URL is
`https://pdalife.com/a/mobdisc` is returned by the fetch loop although its
resolved host `pdalife.com` does not contain the CDN domain and no
download-button selector matches — the code tests the whole URL string for
the substring `mobdisc`, not the host component. -/
theorem C8_host_marker_counterexample :
    fetch_until_success (fun _ => false)
      [.resp 200 "https://pdalife.com/a/mobdisc" emptySoup] 0 =
      .success emptySoup 1 ∧
    strContains (specResolvedHost "https://pdalife.com/a/mobdisc") "mobdisc.com" = false ∧
    emptySoup.bDownloadButtonHrefs = [] := by
  refine ⟨by decide, by decide, rfl⟩

/-- C8 amended: when the validator rejects a fetched document (and the
status is in none of the retry or hard-terminal classes), the document is
nevertheless returned exactly when the full final URL string contains the
substring `"mobdisc"` (anywhere, not only in the host component) or the
download-button selector matches. -/
theorem C8_mirror_marker_condition :
    ∀ (v : Soup → Bool) (st : Nat) (u : String) (d : Soup),
      v d = false → ¬(st = 429 ∨ 500 ≤ st) → st ≠ 403 → st ≠ 451 → st ≠ 404 →
      (fetchStep v (.resp st u d) = .done d ↔
        (strContains u "mobdisc" = true ∨ d.bDownloadButtonHrefs ≠ [])) := by
  intro v st u d h1 h2 h3 h4 h5
  have h34 : ¬(st = 403 ∨ st = 451) := by tauto
  cases hmb : (strContains u "mobdisc" || !d.bDownloadButtonHrefs.isEmpty) with
  | true =>
    have hstep : fetchStep v (.resp st u d) = .done d := by
      simp [fetchStep, h2, h34, h5, h1, hmb]
    rw [hstep]
    constructor
    · intro _
      have hor := hmb
      rw [Bool.or_eq_true] at hor
      rcases hor with hor | hor
      · exact Or.inl hor
      · right
        intro hnil
        rw [hnil] at hor
        simp at hor
    · intro _
      rfl
  | false =>
    have hmob : strContains u "mobdisc" = false := by
      cases hc : strContains u "mobdisc"
      · rfl
      · rw [hc] at hmb; simp at hmb
    have hbtn : d.bDownloadButtonHrefs = [] := by
      cases hl : d.bDownloadButtonHrefs with
      | nil => rfl
      | cons a as => rw [hl] at hmb; simp at hmb
    have hstep : fetchStep v (.resp st u d) ≠ .done d := by
      by_cases h200 : st = 200
      · simp [fetchStep, h2, h34, h5, h1, hmb, h200]
      · simp [fetchStep, h2, h34, h5, h1, hmb, h200]
    constructor
    · intro hd
      exact absurd hd hstep
    · intro hr
      rcases hr with hr | hr
      · rw [hmob] at hr
        exact absurd hr (by decide)
      · exact absurd hbtn hr

/-- C8 witness for the amended statement: a rejected 200 response whose
final URL contains `mobdisc` only in its path is returned. -/
theorem C8_mirror_marker_condition_witness :
    fetchStep (fun _ => false) (.resp 200 "https://pdalife.com/a/mobdisc" emptySoup) =
      .done emptySoup :=
  (C8_mirror_marker_condition (fun _ => false) 200 "https://pdalife.com/a/mobdisc"
      emptySoup rfl (by decide) (by decide) (by decide) (by decide)).mpr
    (Or.inl (by decide))

/-- C2 counterexample: a `#/download/` hash-route button placed before the
`/fdl/` button is returned instead of the normalized `/fdl/` link — the
scan is first-match in document order, so the `/fdl/` rule does not win
over every non-fdl button appearing earlier. -/
theorem C2_scan_order_counterexample :
    scanButtons [some "#/download/z", some "/fdl/y"] =
      some "https://mobdisc.com/download/z" ∧
    ("https://mobdisc.com/download/z" : String) ≠ unwrap_google_url "/fdl/y" := by
  exact ⟨by decide, by decide⟩

/-- C2 amended: the scan skips messaging-app (`t.me`) links and buttons
matching no rule, and returns the normalized form of the first `/fdl/`
button whenever every earlier button is skipped — in particular the
documented list `[t.me/x, /fdl/y, #/download/z]` yields the normalized
`/fdl/y` link.  The `/fdl/` rule has highest priority only within a single
button's link; across buttons the scan is first-match in document order,
so a non-skipped non-fdl button appearing earlier wins instead. -/
theorem C2_fdl_priority_over_skipped :
    (∀ (earlier : List (Option String)) (href : String) (rest : List (Option String)),
        (∀ b ∈ earlier, buttonSkipped b = true) →
        strContains href "t.me" = false →
        strContains href "/fdl/" = true →
        href ≠ "" →
        scanButtons (earlier ++ some href :: rest) = some (unwrap_google_url href)) ∧
    scanButtons [some "t.me/x", some "/fdl/y", some "#/download/z"] =
      some "https://mobdisc.com/fdl/y" ∧
    unwrap_google_url "/fdl/y" = "https://mobdisc.com/fdl/y" := by
  refine ⟨?_, by decide, by decide⟩
  intro earlier href rest hskip h1 h2 h3
  induction earlier with
  | nil => simp [scanButtons, h1, h2, h3]
  | cons b bs ih =>
    rw [List.cons_append,
      scanButtons_skip b _ (hskip b (List.mem_cons_self b bs))]
    exact ih (fun y hy => hskip y (List.mem_cons_of_mem b hy))

/-- C2 witness for the amended statement: the documented list via the
universally quantified part, with the `t.me` button as the skipped
earlier entry. -/
theorem C2_fdl_priority_over_skipped_witness :
    scanButtons [some "t.me/x", some "/fdl/y", some "#/download/z"] =
      some (unwrap_google_url "/fdl/y") :=
  C2_fdl_priority_over_skipped.1 [some "t.me/x"] "/fdl/y" [some "#/download/z"]
    (by intro b hb; simp at hb; subst hb; decide) (by decide) (by decide) (by decide)

/-- C9 counterexample: the normalizer is not idempotent — one pass over
`".translate.translate.goog.goog"` removes the single embedded
`".translate.goog"` occurrence and thereby re-creates that very suffix,
which a second pass removes. -/
theorem C9_not_idempotent_counterexample :
    unwrap_google_url (unwrap_google_url ".translate.translate.goog.goog") ≠
      unwrap_google_url ".translate.translate.goog.goog" := by decide

/-- C9 amended: the normalizer is a pure total function (it always
returns a string, with empty input mapped to the empty string), and
idempotence holds on the spec's documented example inputs — but not for
every string, since one pass can re-create a translate-proxy suffix or a
percent-escape that a second pass rewrites further. -/
theorem C9_idempotent_on_documented_inputs :
    (unwrap_google_url (unwrap_google_url "/fdl/abc") = unwrap_google_url "/fdl/abc" ∧
      unwrap_google_url "/fdl/abc" = "https://mobdisc.com/fdl/abc") ∧
    (unwrap_google_url (unwrap_google_url "/game/xyz") = unwrap_google_url "/game/xyz" ∧
      unwrap_google_url "/game/xyz" = "https://pdalife.com/game/xyz") ∧
    (unwrap_google_url
        (unwrap_google_url "https://pdalife-com.translate.goog/a/b?_x_tr_sl=en") =
        unwrap_google_url "https://pdalife-com.translate.goog/a/b?_x_tr_sl=en" ∧
      unwrap_google_url "https://pdalife-com.translate.goog/a/b?_x_tr_sl=en" =
        "https://pdalife.com/a/b") ∧
    unwrap_google_url "" = "" := by decide

/-- C3: per-variant resolution of the item resolver — a `magnet:` link is
kept verbatim with no fetch and no normalization; a link that is absolute
(`http` in it), external (`pdalife.com` not in it) and not an internal
`/dwn/` redirect goes to the CDN resolver and falls back to the raw link
itself on failure (never dropped); any other link is normalized, fed to
the CDN resolver, and dropped on failure; resolved links keep the
variants' original order, as in the documented
`["magnet:?xt=1", "/dwn/redirect"]` example. -/
theorem C3_variant_resolution :
    (∀ (resolve : String → Except String (Option String)) (tag : LinkTag)
        (rest : List LinkTag) (raw : String),
        tag.href = some raw → raw ≠ "" → pyStartsWith raw "magnet:" = true →
        processVariants resolve (tag :: rest) =
          (processVariants resolve rest).map (fun links => raw :: links)) ∧
    (∀ (resolve : String → Except String (Option String)) (tag : LinkTag)
        (rest : List LinkTag) (raw : String),
        tag.href = some raw → raw ≠ "" → pyStartsWith raw "magnet:" = false →
        strContains raw "http" = true → strContains raw "pdalife.com" = false →
        strContains raw "/dwn/" = false → resolve raw = .ok none →
        processVariants resolve (tag :: rest) =
          (processVariants resolve rest).map (fun links => raw :: links)) ∧
    (∀ (resolve : String → Except String (Option String)) (tag : LinkTag)
        (rest : List LinkTag) (raw d : String),
        tag.href = some raw → raw ≠ "" → pyStartsWith raw "magnet:" = false →
        strContains raw "http" = true → strContains raw "pdalife.com" = false →
        strContains raw "/dwn/" = false → resolve raw = .ok (some d) →
        processVariants resolve (tag :: rest) =
          (processVariants resolve rest).map (fun links => d :: links)) ∧
    (∀ (resolve : String → Except String (Option String)) (tag : LinkTag)
        (rest : List LinkTag) (raw : String),
        tag.href = some raw → raw ≠ "" → pyStartsWith raw "magnet:" = false →
        (strContains raw "http" && !strContains raw "pdalife.com" &&
          !strContains raw "/dwn/") = false →
        resolve (unwrap_google_url raw) = .ok none →
        processVariants resolve (tag :: rest) = processVariants resolve rest) ∧
    (∀ (resolve : String → Except String (Option String)) (tag : LinkTag)
        (rest : List LinkTag) (raw d : String),
        tag.href = some raw → raw ≠ "" → pyStartsWith raw "magnet:" = false →
        (strContains raw "http" && !strContains raw "pdalife.com" &&
          !strContains raw "/dwn/") = false →
        resolve (unwrap_google_url raw) = .ok (some d) →
        processVariants resolve (tag :: rest) =
          (processVariants resolve rest).map (fun links => d :: links)) ∧
    process_item_fully exampleItemEnv "Game" "/detail/x" "/img.png" =
      some { name := "Game"
             link := "https://pdalife.com/detail/x"
             image := "/img.png"
             downloadLinks := ["magnet:?xt=1", "https://cdn/final"]
             size := "15 MB" } := by
  refine ⟨?_, ?_, ?_, ?_, ?_, by decide⟩
  · intro resolve tag rest raw h0 h1 h2
    cases hrec : processVariants resolve rest <;>
      simp [processVariants, h0, h1, h2, hrec, Except.map, Bind.bind, Except.bind,
        pure, Except.pure]
  · intro resolve tag rest raw h0 h1 h2 h3 h4 h5 hres
    cases hrec : processVariants resolve rest <;>
      simp [processVariants, h0, h1, h2, h3, h4, h5, hres, hrec, Except.map,
        Bind.bind, Except.bind, pure, Except.pure]
  · intro resolve tag rest raw d h0 h1 h2 h3 h4 h5 hres
    cases hrec : processVariants resolve rest <;>
      simp [processVariants, h0, h1, h2, h3, h4, h5, hres, hrec, Except.map,
        Bind.bind, Except.bind, pure, Except.pure]
  · intro resolve tag rest raw h0 h1 h2 hext hres
    cases hrec : processVariants resolve rest <;>
      simp [processVariants, h0, h1, h2, hext, hres, hrec, Except.map,
        Bind.bind, Except.bind, pure, Except.pure]
  · intro resolve tag rest raw d h0 h1 h2 hext hres
    cases hrec : processVariants resolve rest <;>
      simp [processVariants, h0, h1, h2, hext, hres, hrec, Except.map,
        Bind.bind, Except.bind, pure, Except.pure]

/-- C3 witness: the branch equations instantiated at the documented
variants, and the fallback branch at a failing external link. -/
theorem C3_variant_resolution_witness :
    processVariants exampleItemEnv.resolveCdn
      [{ href := some "magnet:?xt=1", sizeText := some "15 MB" }] =
      (processVariants exampleItemEnv.resolveCdn []).map
        (fun links => "magnet:?xt=1" :: links) ∧
    processVariants exampleItemEnv.resolveCdn
      [{ href := some "https://onlinerp.me/f", sizeText := none }] =
      (processVariants exampleItemEnv.resolveCdn []).map
        (fun links => "https://onlinerp.me/f" :: links) ∧
    processVariants exampleItemEnv.resolveCdn
      [{ href := some "/dwn/redirect", sizeText := none }] =
      (processVariants exampleItemEnv.resolveCdn []).map
        (fun links => "https://cdn/final" :: links) ∧
    processVariants exampleItemEnv.resolveCdn
      [{ href := some "/dwn/other", sizeText := none }] =
      processVariants exampleItemEnv.resolveCdn [] :=
  ⟨C3_variant_resolution.1 exampleItemEnv.resolveCdn _ [] "magnet:?xt=1"
      rfl (by decide) (by decide),
   C3_variant_resolution.2.1 exampleItemEnv.resolveCdn _ [] "https://onlinerp.me/f"
      rfl (by decide) (by decide) (by decide) (by decide) (by decide) rfl,
   C3_variant_resolution.2.2.2.2.1 exampleItemEnv.resolveCdn _ [] "/dwn/redirect"
      "https://cdn/final" rfl (by decide) (by decide) (by decide) rfl,
   C3_variant_resolution.2.2.2.1 exampleItemEnv.resolveCdn _ [] "/dwn/other"
      rfl (by decide) (by decide) (by decide) rfl⟩

/-- C5: the item resolver never emits a record with an empty
`downloadLinks` sequence; when the per-variant loop yields no link at all,
the whole item resolution returns absent instead. -/
theorem C5_no_empty_download_links :
    (∀ (env : ItemEnv) (name detailUrl image : String) (it : ResolvedItem),
        process_item_fully env name detailUrl image = some it →
        it.downloadLinks ≠ []) ∧
    (∀ (env : ItemEnv) (name detailUrl image : String) (s : Soup),
        env.fetchDetail = .ok (some s) →
        processVariants env.resolveCdn (linkTagsOf s) = .ok [] →
        process_item_fully env name detailUrl image = none) := by
  constructor
  · intro env name detailUrl image it h
    unfold process_item_fully at h
    cases hb : process_item_body env name detailUrl image with
    | error e => rw [hb] at h; exact absurd h (by simp)
    | ok r =>
      rw [hb] at h
      unfold process_item_body at hb
      cases hf : env.fetchDetail with
      | error e =>
        rw [hf] at hb
        simp [Bind.bind, Except.bind] at hb
      | ok fetched =>
        rw [hf] at hb
        cases fetched with
        | none =>
          simp [Bind.bind, Except.bind, pure, Except.pure] at hb
          rw [← hb] at h
          exact absurd h (by simp)
        | some s =>
          simp only [Bind.bind, Except.bind] at hb
          by_cases ht : (linkTagsOf s).isEmpty
          · simp [ht, pure, Except.pure] at hb
            rw [← hb] at h
            exact absurd h (by simp)
          · simp only [ht, if_false, Bool.false_eq_true] at hb
            cases hv : processVariants env.resolveCdn (linkTagsOf s) with
            | error e => rw [hv] at hb; simp at hb
            | ok links =>
              rw [hv] at hb
              by_cases hl : links.isEmpty
              · simp [hl, pure, Except.pure] at hb
                rw [← hb] at h
                exact absurd h (by simp)
              · simp [hl, pure, Except.pure] at hb
                rw [← hb] at h
                simp only [Option.some_inj] at h
                have hdl : it.downloadLinks = links := by rw [← h]
                rw [hdl]
                intro hnil
                rw [hnil] at hl
                exact hl rfl
  · intro env name detailUrl image s hf hv
    unfold process_item_fully process_item_body
    rw [hf]
    simp [Bind.bind, Except.bind, hv, pure, Except.pure]

/-- C5 witness: an environment where every variant is dropped yields an
absent item, and the documented environment yields a record whose
`downloadLinks` is nonempty. -/
theorem C5_no_empty_download_links_witness :
    process_item_fully
      { fetchDetail := .ok (some { emptySoup with
          downloadListItems := [some { href := some "/dwn/dead", sizeText := none }] })
        resolveCdn := fun _ => .ok none } "N" "/d" "/i" = none ∧
    (some { name := "Game", link := "https://pdalife.com/detail/x",
            image := "/img.png",
            downloadLinks := ["magnet:?xt=1", "https://cdn/final"],
            size := "15 MB" } : Option ResolvedItem).elim True
      (fun it => it.downloadLinks ≠ []) :=
  ⟨C5_no_empty_download_links.2
      { fetchDetail := .ok (some { emptySoup with
          downloadListItems := [some { href := some "/dwn/dead", sizeText := none }] })
        resolveCdn := fun _ => .ok none } "N" "/d" "/i" _ rfl rfl,
   C5_no_empty_download_links.1 exampleItemEnv "Game" "/detail/x" "/img.png" _
      (by decide)⟩

/-- C6: an exception anywhere inside one item's resolution pipeline is
caught and converted to an absent result for that item only: the
fan-out result list keeps every sibling's entry in place, and when every
sibling resolves, exactly the N-1 sibling results survive the
absent-filter. -/
theorem C6_exception_isolation :
    (∀ (env : ItemEnv) (name detailUrl image : String) (e : String),
        process_item_body env name detailUrl image = .error e →
        process_item_fully env name detailUrl image = none) ∧
    (∀ (itemEnv : String → String → String → ItemEnv)
        (pre post : List (String × String × String))
        (t : String × String × String) (e : String),
        process_item_body (itemEnv t.1 t.2.1 t.2.2) t.1 t.2.1 t.2.2 = .error e →
        gather_process_items itemEnv (pre ++ t :: post) =
          gather_process_items itemEnv pre ++ none :: gather_process_items itemEnv post) ∧
    (∀ (itemEnv : String → String → String → ItemEnv)
        (pre post : List (String × String × String))
        (t : String × String × String) (e : String),
        process_item_body (itemEnv t.1 t.2.1 t.2.2) t.1 t.2.1 t.2.2 = .error e →
        (∀ t2 ∈ pre ++ post,
          (process_item_fully (itemEnv t2.1 t2.2.1 t2.2.2) t2.1 t2.2.1 t2.2.2).isSome
            = true) →
        ((gather_process_items itemEnv (pre ++ t :: post)).filterMap id).length =
          pre.length + post.length) := by
  have hcatch : ∀ (env : ItemEnv) (name detailUrl image : String) (e : String),
      process_item_body env name detailUrl image = .error e →
      process_item_fully env name detailUrl image = none := by
    intro env name detailUrl image e he
    unfold process_item_fully
    rw [he]
  refine ⟨hcatch, ?_, ?_⟩
  · intro itemEnv pre post t e he
    simp only [gather_process_items, List.map_append, List.map_cons]
    rw [hcatch _ _ _ _ e he]
  · intro itemEnv pre post t e he hall
    have hmap : gather_process_items itemEnv (pre ++ t :: post) =
        gather_process_items itemEnv pre ++ none :: gather_process_items itemEnv post := by
      simp only [gather_process_items, List.map_append, List.map_cons]
      rw [hcatch _ _ _ _ e he]
    rw [hmap, List.filterMap_append, List.filterMap_cons]
    simp only [id, List.length_append]
    have hpre : ((gather_process_items itemEnv pre).filterMap id).length = pre.length := by
      rw [filterMap_id_length_of_isSome]
      · simp [gather_process_items]
      · intro x hx
        rcases List.mem_map.mp hx with ⟨t2, ht2, rfl⟩
        exact hall t2 (List.mem_append_left _ ht2)
    have hpost : ((gather_process_items itemEnv post).filterMap id).length = post.length := by
      rw [filterMap_id_length_of_isSome]
      · simp [gather_process_items]
      · intro x hx
        rcases List.mem_map.mp hx with ⟨t2, ht2, rfl⟩
        exact hall t2 (List.mem_append_right _ ht2)
    rw [hpre, hpost]

/-- C6 witness: a batch of three tasks whose middle task raises returns
the two sibling results and drops only the failed one. -/
theorem C6_exception_isolation_witness :
    gather_process_items mixedItemEnvFor
      [("Alpha", "/a", ""), ("Beta", "/b", ""), ("Gamma", "/c", "")] =
      gather_process_items mixedItemEnvFor [("Alpha", "/a", "")] ++
        none :: gather_process_items mixedItemEnvFor [("Gamma", "/c", "")] ∧
    ((gather_process_items mixedItemEnvFor
        [("Alpha", "/a", ""), ("Beta", "/b", ""), ("Gamma", "/c", "")]).filterMap
        id).length = 2 :=
  ⟨C6_exception_isolation.2.1 mixedItemEnvFor [("Alpha", "/a", "")]
      [("Gamma", "/c", "")] ("Beta", "/b", "") "connection reset" rfl,
   C6_exception_isolation.2.2 mixedItemEnvFor [("Alpha", "/a", "")]
      [("Gamma", "/c", "")] ("Beta", "/b", "") "connection reset" rfl
      (by intro t2 ht2; fin_cases ht2 <;> decide)⟩

theorem search_apps_results_characterization
    (fetchSearch : String → Option Soup) (itemEnv : String → String → String → ItemEnv)
    (query : String) (limit : Int) (resp : SearchResponse)
    (h : search_apps fetchSearch itemEnv query limit = .ok resp) :
    resp.results =
      (pySliceTo limit (paginate fetchSearch query limit).1).filterMap
        (fun item => (stubTask item).bind
          (fun t => process_item_fully (itemEnv t.1 t.2.1 t.2.2) t.1 t.2.1 t.2.2)) := by
  by_cases hc : ((paginate fetchSearch query limit).1).isEmpty = true
  · have hnil := List.isEmpty_iff.mp hc
    simp only [search_apps, hc, if_true] at h
    cases h
    simp [hnil, pySliceTo]
  · simp only [search_apps, hc, Bool.false_eq_true, if_false] at h
    cases hb : buildTasks (pySliceTo limit (paginate fetchSearch query limit).1) with
    | error e => rw [hb] at h; cases h
    | ok tasks =>
      rw [hb] at h
      cases h
      simp only [gather_process_items]
      rw [buildTasks_ok_filterMap _ _ hb, List.filterMap_map, List.filterMap_filterMap]
      rfl

/-- C4: the search orchestrator stops fetching further result pages as
soon as the accumulated raw entries reach the limit (from any such loop
state it returns immediately, fetching no page), dispatches at most
`limit` stubs, and — on every run on which the handler completes — the
returned results are the per-stub resolutions of the truncated stub list
in original order with failed resolutions excluded, hence at most
`limit` results; and when at least `limit` entries were accumulated the
truncation keeps exactly `limit` stubs. -/
theorem C4_limit_truncation :
    (∀ (fetchSearch : String → Option Soup) (query : String) (limit : Int)
        (fuel : Nat) (collected : List CatalogItem) (page maxP : Int),
        limit ≤ (collected.length : Int) →
        paginateAux fetchSearch query limit fuel collected page maxP =
          (collected, [])) ∧
    (∀ (fetchSearch : String → Option Soup)
        (itemEnv : String → String → String → ItemEnv)
        (query : String) (limit : Int), 0 < limit →
        (∀ (resp : SearchResponse),
          search_apps fetchSearch itemEnv query limit = .ok resp →
          resp.results =
            (pySliceTo limit (paginate fetchSearch query limit).1).filterMap
              (fun item => (stubTask item).bind
                (fun t =>
                  process_item_fully (itemEnv t.1 t.2.1 t.2.2) t.1 t.2.1 t.2.2)) ∧
          resp.results.length ≤ limit.toNat) ∧
        (limit ≤ ((paginate fetchSearch query limit).1.length : Int) →
          (pySliceTo limit (paginate fetchSearch query limit).1).length =
            limit.toNat)) := by
  constructor
  · intro fetchSearch query limit fuel collected page maxP h
    cases fuel with
    | zero => rfl
    | succ f =>
      simp only [paginateAux]
      rw [if_neg (by omega : ¬((collected.length : Int) < limit))]
  · intro fetchSearch itemEnv query limit hpos
    constructor
    · intro resp hok
      have hres := search_apps_results_characterization fetchSearch itemEnv query
        limit resp hok
      refine ⟨hres, ?_⟩
      rw [hres]
      have h1 : (pySliceTo limit (paginate fetchSearch query limit).1).length ≤
          limit.toNat := by
        unfold pySliceTo
        rw [if_pos (by omega : (0 : Int) ≤ limit), List.length_take]
        omega
      exact le_trans (List.length_filterMap_le _ _) h1
    · intro hle
      unfold pySliceTo
      rw [if_pos (by omega : (0 : Int) ≤ limit), List.length_take]
      omega

/-- C4 witness: a loop state that has already reached the limit fetches
nothing more, and a concrete completed search returns at most `limit`
results. -/
theorem C4_limit_truncation_witness :
    paginateAux onePageFetch "alpha" 2 5
      [exampleCatalogItem, exampleCatalogItem2] 9 4 =
      ([exampleCatalogItem, exampleCatalogItem2], []) ∧
    ({ success := true, query := some "alpha", limit := some 3, count := 0,
       results := [] } : SearchResponse).results.length ≤ (3 : Int).toNat :=
  ⟨C4_limit_truncation.1 onePageFetch "alpha" 2 5
      [exampleCatalogItem, exampleCatalogItem2] 9 4 (by decide),
   ((C4_limit_truncation.2 onePageFetch trivialItemEnvFor "alpha" 3 (by decide)).1
      { success := true, query := some "alpha", limit := some 3, count := 0,
        results := [] } rfl).2⟩

/-- C10: when the first results page has no load-more element with a
well-formed integer `data-max_page` attribute, the discovered maximum page
keeps its initial value 1, so the orchestrator fetches exactly page 1 and
stops paginating even though fewer raw entries than the limit may have
been collected. -/
theorem C10_default_max_page :
    ∀ (fetchSearch : String → Option Soup) (query : String) (limit : Int)
      (soup : Soup),
      0 < limit →
      fetchSearch (searchUrl query 1) = some soup →
      soup.hasFoundZero = false →
      soup.catalogItems ≠ [] →
      soup.loadMoreMaxPage.bind pyInt = none →
      paginate fetchSearch query limit = (soup.catalogItems, [1]) := by
  intro fetchSearch query limit soup hpos hf hz hne hmp
  unfold paginate
  obtain ⟨k, hk⟩ : ∃ k, limit.toNat = k + 1 := ⟨limit.toNat - 1, by omega⟩
  rw [hk]
  simp only [paginateAux]
  rw [if_pos (by simpa using hpos : ((([] : List CatalogItem).length : Int) < limit))]
  rw [hf]
  have hie : soup.catalogItems.isEmpty = false := by
    cases hl : soup.catalogItems with
    | nil => exact absurd hl hne
    | cons a as => rfl
  simp [hz, hie, hmp]

/-- C10 witness: the one-page fixture (whose `data-max_page` attribute is
malformed) is fetched once and pagination stops with its two entries,
although the limit of 5 was not reached. -/
theorem C10_default_max_page_witness :
    paginate onePageFetch "alpha" 5 =
      ([exampleCatalogItem, exampleCatalogItem2], [1]) :=
  C10_default_max_page onePageFetch "alpha" 5 onePageSoup (by decide) rfl rfl
    (by decide) rfl

/-- C7 counterexample: a search where no raw item is collected answers
with the bare payload `{success: true, count: 0, results: []}` — the
`query` and `limit` keys are absent from this early return, so they are
not present in every response. -/
theorem C7_missing_query_limit_counterexample :
    search_apps (fun _ => none) trivialItemEnvFor "minecraft" 5 =
      .ok { success := true, query := none, limit := none, count := 0,
            results := [] } := rfl

/-- C7 amended: every `GET /search` run on which the handler completes
answers with a success payload — `success` is `true`, `count` equals the
number of returned result objects, and the `query` and `limit` fields are
present whenever at least one raw entry was collected, while the
zero-collected early return omits them; a request where zero items are
found always completes with the bare success payload (never an error
status), and a request whose task building completes but where zero items
resolve also completes with a success payload; the handler does raise,
however, when a collected entry's title anchor lacks an `href` attribute
(an uncaught `KeyError` surfacing as an error response), as the last
conjunct exhibits. -/
theorem C7_success_payload_shape :
    (∀ (fetchSearch : String → Option Soup)
        (itemEnv : String → String → String → ItemEnv)
        (query : String) (limit : Int) (resp : SearchResponse),
        search_apps fetchSearch itemEnv query limit = .ok resp →
        resp.success = true ∧
        resp.count = resp.results.length ∧
        ((paginate fetchSearch query limit).1 ≠ [] →
          resp.query = some query ∧ resp.limit = some limit)) ∧
    (∀ (fetchSearch : String → Option Soup)
        (itemEnv : String → String → String → ItemEnv)
        (query : String) (limit : Int),
        (paginate fetchSearch query limit).1 = [] →
        search_apps fetchSearch itemEnv query limit =
          .ok { success := true, query := none, limit := none, count := 0,
                results := [] }) ∧
    (∀ (fetchSearch : String → Option Soup)
        (itemEnv : String → String → String → ItemEnv)
        (query : String) (limit : Int)
        (tasks : List (String × String × String)),
        (paginate fetchSearch query limit).1 ≠ [] →
        buildTasks (pySliceTo limit (paginate fetchSearch query limit).1) =
          .ok tasks →
        search_apps fetchSearch itemEnv query limit =
          .ok { success := true, query := some query, limit := some limit
                count := ((gather_process_items itemEnv tasks).filterMap id).length
                results := (gather_process_items itemEnv tasks).filterMap id }) ∧
    search_apps hrefLessPageFetch trivialItemEnvFor "alpha" 5 =
      .error "KeyError: href" := by
  refine ⟨?_, ?_, ?_, rfl⟩
  · intro fetchSearch itemEnv query limit resp hok
    by_cases hc : ((paginate fetchSearch query limit).1).isEmpty = true
    · have hnil := List.isEmpty_iff.mp hc
      simp only [search_apps, hc, if_true] at hok
      cases hok
      exact ⟨rfl, rfl, fun hne => absurd hnil hne⟩
    · simp only [search_apps, hc, Bool.false_eq_true, if_false] at hok
      cases hb : buildTasks (pySliceTo limit (paginate fetchSearch query limit).1) with
      | error e => rw [hb] at hok; cases hok
      | ok tasks =>
        rw [hb] at hok
        cases hok
        exact ⟨rfl, rfl, fun _ => ⟨rfl, rfl⟩⟩
  · intro fetchSearch itemEnv query limit hnil
    have hc : ((paginate fetchSearch query limit).1).isEmpty = true := by
      rw [hnil]; rfl
    simp [search_apps, hc]
  · intro fetchSearch itemEnv query limit tasks hne hb
    have hc : ((paginate fetchSearch query limit).1).isEmpty = false := by
      cases hl : (paginate fetchSearch query limit).1 with
      | nil => exact absurd hl hne
      | cons a as => rfl
    simp [search_apps, hc, hb]

/-- C7 witness: a completed search that collects entries carries the
`query` and `limit` fields with `success` and a matching `count`, a
fetch collecting nothing yields the bare success payload, and a
completed task build yields the full success payload even though zero
items resolve. -/
theorem C7_success_payload_shape_witness :
    (({ success := true, query := some "alpha", limit := some 5, count := 0,
        results := [] } : SearchResponse).success = true ∧
      ({ success := true, query := some "alpha", limit := some 5, count := 0,
         results := [] } : SearchResponse).query = some "alpha" ∧
      ({ success := true, query := some "alpha", limit := some 5, count := 0,
         results := [] } : SearchResponse).limit = some 5) ∧
    search_apps (fun _ => none) trivialItemEnvFor "nothing" 5 =
      .ok { success := true, query := none, limit := none, count := 0,
            results := [] } ∧
    search_apps onePageFetch trivialItemEnvFor "alpha" 5 =
      .ok { success := true, query := some "alpha", limit := some 5
            count := ((gather_process_items trivialItemEnvFor
              [("Alpha", "https://pdalife.com/alpha", "https://pdalife.com/alpha.png"),
               ("Beta", "https://pdalife.com/beta", "")]).filterMap id).length
            results := (gather_process_items trivialItemEnvFor
              [("Alpha", "https://pdalife.com/alpha", "https://pdalife.com/alpha.png"),
               ("Beta", "https://pdalife.com/beta", "")]).filterMap id } :=
  ⟨(by
      have h := C7_success_payload_shape.1 onePageFetch trivialItemEnvFor "alpha" 5
        { success := true, query := some "alpha", limit := some 5, count := 0,
          results := [] } rfl
      exact ⟨h.1, (h.2.2 (by decide)).1, (h.2.2 (by decide)).2⟩),
   C7_success_payload_shape.2.1 (fun _ => none) trivialItemEnvFor "nothing" 5 rfl,
   C7_success_payload_shape.2.2.1 onePageFetch trivialItemEnvFor "alpha" 5
     [("Alpha", "https://pdalife.com/alpha", "https://pdalife.com/alpha.png"),
      ("Beta", "https://pdalife.com/beta", "")] (by decide) rfl⟩

end PdaLife
